import Mathlib

/-!
Verification of the vending-machine automaton engines from
`vending_machine_comparison.py`: the single-path DFA (`OriginalDFA`),
the two-line DFA (`TwoLineDFA`) and the NFA simulator (`NFASimulator`).
Each Lean definition is a shallow embedding of the corresponding Python
class member, keeping the source names where Lean allows it.
-/

/-- The product values that `transition` can report as dispensed
(the Python strings `'Eye Drop'` and `'Vitamin'`). -/
inductive Product where
  | EyeDrop
  | Vitamin
deriving DecidableEq, Repr

namespace OriginalDFA

/-- States `Q0`..`Q10` of `OriginalDFA.STATES`. -/
inductive St where
  | Q0 | Q1 | Q2 | Q3 | Q4 | Q5 | Q6 | Q7 | Q8 | Q9 | Q10
deriving DecidableEq, Repr, Fintype

/-- Alphabet `OriginalDFA.SIGMA = ['RM5', 'RM10', 'RM20', 'e', 'v']`. -/
inductive Sym where
  | RM5 | RM10 | RM20 | e | v
deriving DecidableEq, Repr, Fintype

open St Sym

/-- Embeds `OriginalDFA.ACCEPTING = {'Q7', 'Q8', 'Q9', 'Q10'}`. -/
def ACCEPTING : Finset St := {Q7, Q8, Q9, Q10}

/-- Embeds `OriginalDFA.DELTA`, the total transition table of the
single-path DFA. -/
def DELTA : St → Sym → St
  | Q0, RM5 => Q1 | Q0, RM10 => Q2 | Q0, RM20 => Q4 | Q0, e => Q0 | Q0, v => Q0
  | Q1, RM5 => Q2 | Q1, RM10 => Q3 | Q1, RM20 => Q5 | Q1, e => Q1 | Q1, v => Q1
  | Q2, RM5 => Q3 | Q2, RM10 => Q4 | Q2, RM20 => Q6 | Q2, e => Q2 | Q2, v => Q2
  | Q3, RM5 => Q4 | Q3, RM10 => Q5 | Q3, RM20 => Q7 | Q3, e => Q3 | Q3, v => Q3
  | Q4, RM5 => Q5 | Q4, RM10 => Q6 | Q4, RM20 => Q8 | Q4, e => Q4 | Q4, v => Q4
  | Q5, RM5 => Q6 | Q5, RM10 => Q7 | Q5, RM20 => Q9 | Q5, e => Q5 | Q5, v => Q5
  | Q6, RM5 => Q7 | Q6, RM10 => Q8 | Q6, RM20 => Q10 | Q6, e => Q6 | Q6, v => Q6
  | Q7, RM5 => Q8 | Q7, RM10 => Q9 | Q7, RM20 => Q10 | Q7, e => Q0 | Q7, v => Q7
  | Q8, RM5 => Q9 | Q8, RM10 => Q10 | Q8, RM20 => Q10 | Q8, e => Q0 | Q8, v => Q8
  | Q9, RM5 => Q10 | Q9, RM10 => Q10 | Q9, RM20 => Q10 | Q9, e => Q0 | Q9, v => Q9
  | Q10, RM5 => Q10 | Q10, RM10 => Q10 | Q10, RM20 => Q10 | Q10, e => Q0 | Q10, v => Q0

/-- Balance metadata, the first component of `OriginalDFA.STATE_INFO`. -/
def balanceOf : St → Nat
  | Q0 => 0 | Q1 => 5 | Q2 => 10 | Q3 => 15 | Q4 => 20 | Q5 => 25
  | Q6 => 30 | Q7 => 35 | Q8 => 40 | Q9 => 45 | Q10 => 50

/-- Embeds `OriginalDFA.transition(symbol)`: returns `(old, new,
dispensed)`. A dispense is reported iff the old state is accepting, the
new state is `Q0`, and the symbol is a product symbol `e` or `v`. -/
def transition (old : St) (symbol : Sym) : St × St × Option Product :=
  let new := DELTA old symbol
  let dispensed : Option Product :=
    if old ∈ ACCEPTING ∧ new = Q0 then
      if symbol = e then some Product.EyeDrop
      else if symbol = v then some Product.Vitamin
      else none
    else none
  (old, new, dispensed)

end OriginalDFA

namespace TwoLineDFA

/-- States of `TwoLineDFA.STATES`: shared start `S0`, eye-drop line
`E1`..`E7`, vitamin line `V1`..`V10`. -/
inductive St where
  | S0
  | E1 | E2 | E3 | E4 | E5 | E6 | E7
  | V1 | V2 | V3 | V4 | V5 | V6 | V7 | V8 | V9 | V10
deriving DecidableEq, Repr, Fintype

/-- Alphabet `TwoLineDFA.SIGMA`, with the two selection symbols. -/
inductive Sym where
  | RM5 | RM10 | RM20 | e | v | select_e | select_v
deriving DecidableEq, Repr, Fintype

open St Sym

/-- Embeds `TwoLineDFA.ACCEPTING_EYE = {'E7'}`. -/
def ACCEPTING_EYE : Finset St := {E7}

/-- Embeds `TwoLineDFA.ACCEPTING_VIT = {'V10'}`. -/
def ACCEPTING_VIT : Finset St := {V10}

/-- Embeds `TwoLineDFA.DELTA`, the total transition table of the
two-line DFA. -/
def DELTA : St → Sym → St
  | S0, select_e => E1 | S0, select_v => V1
  | S0, RM5 => S0 | S0, RM10 => S0 | S0, RM20 => S0 | S0, e => S0 | S0, v => S0
  | E1, RM5 => E2 | E1, RM10 => E3 | E1, RM20 => E5
  | E1, e => E1 | E1, v => E1 | E1, select_e => E1 | E1, select_v => V1
  | E2, RM5 => E3 | E2, RM10 => E4 | E2, RM20 => E6
  | E2, e => E2 | E2, v => E2 | E2, select_e => E2 | E2, select_v => V2
  | E3, RM5 => E4 | E3, RM10 => E5 | E3, RM20 => E7
  | E3, e => E3 | E3, v => E3 | E3, select_e => E3 | E3, select_v => V3
  | E4, RM5 => E5 | E4, RM10 => E6 | E4, RM20 => E7
  | E4, e => E4 | E4, v => E4 | E4, select_e => E4 | E4, select_v => V4
  | E5, RM5 => E6 | E5, RM10 => E7 | E5, RM20 => E7
  | E5, e => E5 | E5, v => E5 | E5, select_e => E5 | E5, select_v => V5
  | E6, RM5 => E7 | E6, RM10 => E7 | E6, RM20 => E7
  | E6, e => E6 | E6, v => E6 | E6, select_e => E6 | E6, select_v => V6
  | E7, RM5 => E7 | E7, RM10 => E7 | E7, RM20 => E7
  | E7, e => S0 | E7, v => E7 | E7, select_e => E7 | E7, select_v => V7
  | V1, RM5 => V2 | V1, RM10 => V3 | V1, RM20 => V5
  | V1, e => V1 | V1, v => V1 | V1, select_e => E1 | V1, select_v => V1
  | V2, RM5 => V3 | V2, RM10 => V4 | V2, RM20 => V6
  | V2, e => V2 | V2, v => V2 | V2, select_e => E2 | V2, select_v => V2
  | V3, RM5 => V4 | V3, RM10 => V5 | V3, RM20 => V7
  | V3, e => V3 | V3, v => V3 | V3, select_e => E3 | V3, select_v => V3
  | V4, RM5 => V5 | V4, RM10 => V6 | V4, RM20 => V8
  | V4, e => V4 | V4, v => V4 | V4, select_e => E4 | V4, select_v => V4
  | V5, RM5 => V6 | V5, RM10 => V7 | V5, RM20 => V9
  | V5, e => V5 | V5, v => V5 | V5, select_e => E5 | V5, select_v => V5
  | V6, RM5 => V7 | V6, RM10 => V8 | V6, RM20 => V10
  | V6, e => V6 | V6, v => V6 | V6, select_e => E6 | V6, select_v => V6
  | V7, RM5 => V8 | V7, RM10 => V9 | V7, RM20 => V10
  | V7, e => V7 | V7, v => V7 | V7, select_e => E7 | V7, select_v => V7
  | V8, RM5 => V9 | V8, RM10 => V10 | V8, RM20 => V10
  | V8, e => V8 | V8, v => V8 | V8, select_e => E7 | V8, select_v => V8
  | V9, RM5 => V10 | V9, RM10 => V10 | V9, RM20 => V10
  | V9, e => V9 | V9, v => V9 | V9, select_e => E7 | V9, select_v => V9
  | V10, RM5 => V10 | V10, RM10 => V10 | V10, RM20 => V10
  | V10, e => V10 | V10, v => S0 | V10, select_e => E7 | V10, select_v => V10

/-- Balance metadata, the first component of `TwoLineDFA.STATE_INFO`. -/
def balanceOf : St → Nat
  | S0 => 0
  | E1 => 5 | E2 => 10 | E3 => 15 | E4 => 20 | E5 => 25 | E6 => 30 | E7 => 35
  | V1 => 5 | V2 => 10 | V3 => 15 | V4 => 20 | V5 => 25 | V6 => 30
  | V7 => 35 | V8 => 40 | V9 => 45 | V10 => 50

/-- Embeds `TwoLineDFA.transition(symbol)`: returns `(old, new,
dispensed)`. Eye drop dispenses from `ACCEPTING_EYE` on `e` into `S0`;
vitamin from `ACCEPTING_VIT` on `v` into `S0`. -/
def transition (old : St) (symbol : Sym) : St × St × Option Product :=
  let new := DELTA old symbol
  let dispensed : Option Product :=
    if old ∈ ACCEPTING_EYE ∧ new = S0 ∧ symbol = e then some Product.EyeDrop
    else if old ∈ ACCEPTING_VIT ∧ new = S0 ∧ symbol = v then some Product.Vitamin
    else none
  (old, new, dispensed)

/-- Run a list of symbols from a state, following only the new-state
component of each `transition`. -/
def run (start : St) : List Sym → St
  | [] => start
  | symbol :: rest => run (transition start symbol).2.1 rest

/-- Membership in the vitamin line `V1`..`V10`. -/
def isVitaminLine : St → Prop
  | V1 | V2 | V3 | V4 | V5 | V6 | V7 | V8 | V9 | V10 => True
  | _ => False

instance : DecidablePred isVitaminLine := fun s => by
  cases s <;> simp [isVitaminLine] <;> infer_instance

end TwoLineDFA

namespace NFASimulator

/-- States of `NFASimulator.STATES`: the balance chain `Q0`..`Q10` plus
`EYE_READY`, `VIT_READY` and the sink `DISPENSE`. -/
inductive St where
  | Q0 | Q1 | Q2 | Q3 | Q4 | Q5 | Q6 | Q7 | Q8 | Q9 | Q10
  | EYE_READY | VIT_READY | DISPENSE
deriving DecidableEq, Repr, Fintype

/-- Alphabet `NFASimulator.SIGMA`. -/
inductive Sym where
  | RM5 | RM10 | RM20 | dispense_e | dispense_v
deriving DecidableEq, Repr, Fintype

open St Sym

/-- The input-symbol part of `NFASimulator.DELTA`: `state -> symbol ->
set of next states`; a missing entry is the empty set, matching
`DELTA.get(state, {}).get(symbol, set())`. -/
def DELTA : St → Sym → Finset St
  | Q0, RM5 => {Q1} | Q0, RM10 => {Q2} | Q0, RM20 => {Q4}
  | Q1, RM5 => {Q2} | Q1, RM10 => {Q3} | Q1, RM20 => {Q5}
  | Q2, RM5 => {Q3} | Q2, RM10 => {Q4} | Q2, RM20 => {Q6}
  | Q3, RM5 => {Q4} | Q3, RM10 => {Q5} | Q3, RM20 => {Q7}
  | Q4, RM5 => {Q5} | Q4, RM10 => {Q6} | Q4, RM20 => {Q8}
  | Q5, RM5 => {Q6} | Q5, RM10 => {Q7} | Q5, RM20 => {Q9}
  | Q6, RM5 => {Q7} | Q6, RM10 => {Q8} | Q6, RM20 => {Q10}
  | Q7, RM5 => {Q8} | Q7, RM10 => {Q9} | Q7, RM20 => {Q10}
  | Q8, RM5 => {Q9} | Q8, RM10 => {Q10} | Q8, RM20 => {Q10}
  | Q9, RM5 => {Q10} | Q9, RM10 => {Q10} | Q9, RM20 => {Q10}
  | Q10, RM5 => {Q10} | Q10, RM10 => {Q10} | Q10, RM20 => {Q10}
  | EYE_READY, dispense_e => {DISPENSE}
  | VIT_READY, dispense_v => {DISPENSE}
  | _, _ => ∅

/-- The `'eps'` entries of `NFASimulator.DELTA`: epsilon edges consumed
without input. -/
def epsDELTA : St → Finset St
  | Q7 => {EYE_READY} | Q8 => {EYE_READY} | Q9 => {EYE_READY}
  | Q10 => {EYE_READY, VIT_READY}
  | DISPENSE => {Q0}
  | _ => ∅

/-- Balance metadata, the first component of `NFASimulator.STATE_INFO`
(`EYE_READY`, `VIT_READY` and `DISPENSE` carry balance 0). -/
def balanceOf : St → Nat
  | Q0 => 0 | Q1 => 5 | Q2 => 10 | Q3 => 15 | Q4 => 20 | Q5 => 25
  | Q6 => 30 | Q7 => 35 | Q8 => 40 | Q9 => 45 | Q10 => 50
  | EYE_READY => 0 | VIT_READY => 0 | DISPENSE => 0

/-- One saturation round of the worklist in
`NFASimulator._epsilon_closure`: add every epsilon successor of every
held state. -/
def stepEps (S : Finset St) : Finset St := S ∪ S.biUnion epsDELTA

/-- Embeds `NFASimulator._epsilon_closure(states)`: the worklist loop
saturates the set under epsilon edges until no new state appears; since
each round only grows the set inside the 14-state universe, iterating
the round `Fintype.card St` times reaches the same fixed point the loop
stops at. -/
def epsilon_closure (S : Finset St) : Finset St :=
  stepEps^[Fintype.card St] S

/-- The local `new_states` of `NFASimulator.transition`: the union over
all currently-held states of the successor sets on the input symbol. -/
def new_states (S : Finset St) (symbol : Sym) : Finset St :=
  S.biUnion fun s => DELTA s symbol

/-- The position update of `NFASimulator.transition`: if the successor
union is non-empty, epsilon-close it and replace the position; otherwise
the position is left unchanged. -/
def posAfterMove (S : Finset St) (symbol : Sym) : Finset St :=
  if (new_states S symbol).Nonempty then epsilon_closure (new_states S symbol)
  else S

/-- Embeds `NFASimulator.transition(symbol)`: returns
`(old_states, current_states, dispensed)`. If `DISPENSE` is in the
updated position, the consumed symbol decides the dispensed product and
the position is force-reset to the closure of `{Q0}` in the same call. -/
def transition (S : Finset St) (symbol : Sym) :
    Finset St × Finset St × Option Product :=
  if St.DISPENSE ∈ posAfterMove S symbol then
    (S, epsilon_closure {St.Q0},
      if symbol = Sym.dispense_e then some Product.EyeDrop
      else if symbol = Sym.dispense_v then some Product.Vitamin
      else none)
  else (S, posAfterMove S symbol, none)

/-- Run a list of symbols, following the updated-position component of
each `transition`. -/
def runTransitions (S : Finset St) : List Sym → Finset St
  | [] => S
  | symbol :: rest => runTransitions (transition S symbol).2.1 rest

/-- Embeds `NFASimulator.get_balance()`: the maximum balance metadata
value over the currently-held states, starting from 0 as in the Python
loop. -/
def get_balance (S : Finset St) : Nat :=
  S.fold max 0 balanceOf

/-- A set of states is closed under epsilon: it contains every epsilon
successor of each of its members. -/
def IsEpsClosed (S : Finset St) : Prop :=
  ∀ s ∈ S, epsDELTA s ⊆ S

/-- The positions the runtime can hold: `__init__` and `reset()` both
place it at the epsilon closure of the singleton initial state, and
every `transition(symbol)` call moves it to the updated position the
call returns. -/
inductive Reachable : Finset St → Prop where
  | init : Reachable (epsilon_closure {St.Q0})
  | step (S : Finset St) (symbol : Sym) :
      Reachable S → Reachable (transition S symbol).2.1

theorem subset_stepEps (S : Finset St) : S ⊆ stepEps S :=
  Finset.subset_union_left

theorem stepEps_iterate_of_fix {S : Finset St} (h : stepEps S = S) :
    ∀ n, stepEps^[n] S = S := by
  intro n
  induction n with
  | zero => rfl
  | succ n ih => rw [Function.iterate_succ_apply', ih, h]

theorem stepEps_iterate_fix_or_card (S : Finset St) :
    ∀ n, stepEps (stepEps^[n] S) = stepEps^[n] S ∨ n ≤ (stepEps^[n] S).card := by
  intro n
  induction n with
  | zero => exact Or.inr (Nat.zero_le _)
  | succ n ih =>
    by_cases hfix : stepEps (stepEps^[n] S) = stepEps^[n] S
    · left
      rw [Function.iterate_succ_apply', hfix, hfix]
    · rcases ih with ih | ih
      · exact absurd ih hfix
      · right
        rw [Function.iterate_succ_apply']
        have hss : stepEps^[n] S ⊂ stepEps (stepEps^[n] S) :=
          Finset.ssubset_iff_subset_ne.mpr ⟨subset_stepEps _, fun h => hfix h.symm⟩
        exact Nat.succ_le_of_lt (lt_of_le_of_lt ih (Finset.card_lt_card hss))

theorem stepEps_univ : stepEps (Finset.univ : Finset St) = Finset.univ :=
  le_antisymm (Finset.subset_univ _) (subset_stepEps _)

/-- The loop result is a fixed point of the saturation round. -/
theorem stepEps_epsilon_closure (S : Finset St) :
    stepEps (epsilon_closure S) = epsilon_closure S := by
  rcases stepEps_iterate_fix_or_card S (Fintype.card St) with h | h
  · exact h
  · have hcard : (stepEps^[Fintype.card St] S).card = Fintype.card St :=
      le_antisymm (Finset.card_le_univ _) h
    have huniv : stepEps^[Fintype.card St] S = Finset.univ :=
      Finset.card_eq_iff_eq_univ _ |>.mp hcard
    unfold epsilon_closure
    rw [huniv, stepEps_univ]

theorem subset_epsilon_closure (S : Finset St) : S ⊆ epsilon_closure S := by
  unfold epsilon_closure
  induction Fintype.card St with
  | zero => exact subset_refl _
  | succ n ih =>
    rw [Function.iterate_succ_apply']
    exact subset_trans ih (subset_stepEps _)

theorem isEpsClosed_iff_fix (S : Finset St) :
    IsEpsClosed S ↔ stepEps S = S := by
  unfold IsEpsClosed stepEps
  rw [Finset.union_eq_left, Finset.biUnion_subset]

theorem isEpsClosed_epsilon_closure (S : Finset St) :
    IsEpsClosed (epsilon_closure S) :=
  (isEpsClosed_iff_fix _).mpr (stepEps_epsilon_closure S)

/-- No position the runtime can hold contains the sink `DISPENSE`: when a
transition passes through it, the same call resets to the closure of
`{Q0}` before returning. -/
theorem reachable_not_dispense_mem {S : Finset St} (h : Reachable S) :
    St.DISPENSE ∉ S := by
  induction h with
  | init => decide
  | step S symbol hR ih =>
    unfold transition
    by_cases hd : St.DISPENSE ∈ posAfterMove S symbol
    · rw [if_pos hd]
      show St.DISPENSE ∉ epsilon_closure {St.Q0}
      decide
    · rw [if_neg hd]
      exact hd

/-- Every position the runtime can hold is a non-empty set. -/
theorem reachable_nonempty {S : Finset St} (h : Reachable S) :
    S.Nonempty := by
  induction h with
  | init => decide
  | step S symbol hR ih =>
    unfold transition
    by_cases hd : St.DISPENSE ∈ posAfterMove S symbol
    · rw [if_pos hd]
      show (epsilon_closure {St.Q0}).Nonempty
      decide
    · rw [if_neg hd]
      dsimp only
      unfold posAfterMove
      by_cases hne : (new_states S symbol).Nonempty
      · rw [if_pos hne]
        exact hne.mono (subset_epsilon_closure _)
      · rw [if_neg hne]
        exact ih

/-- Only `EYE_READY` moves on `dispense_e`, so the successor union of a
set holding it is exactly the sink singleton. -/
theorem new_states_eye {S : Finset St} (h : St.EYE_READY ∈ S) :
    new_states S Sym.dispense_e = {St.DISPENSE} := by
  apply Finset.Subset.antisymm
  · exact Finset.biUnion_subset.mpr fun s _ => by cases s <;> decide
  · exact Finset.singleton_subset_iff.mpr
      (Finset.mem_biUnion.mpr ⟨St.EYE_READY, h, by decide⟩)

/-- Only `VIT_READY` moves on `dispense_v`, so the successor union of a
set holding it is exactly the sink singleton. -/
theorem new_states_vit {S : Finset St} (h : St.VIT_READY ∈ S) :
    new_states S Sym.dispense_v = {St.DISPENSE} := by
  apply Finset.Subset.antisymm
  · exact Finset.biUnion_subset.mpr fun s _ => by cases s <;> decide
  · exact Finset.singleton_subset_iff.mpr
      (Finset.mem_biUnion.mpr ⟨St.VIT_READY, h, by decide⟩)

end NFASimulator

/-- C1, counterexample: from the accepting state `Q7` (balance RM35) the
symbol `v` is a self-loop with no dispense: `transition` returns
`(Q7, Q7, none)`, not the `(Q7, Q0, Vitamin)` the claim asserts. -/
theorem C1_counterexample :
    OriginalDFA.transition OriginalDFA.St.Q7 OriginalDFA.Sym.v =
      (OriginalDFA.St.Q7, OriginalDFA.St.Q7, none) ∧
    OriginalDFA.St.Q7 ∈ OriginalDFA.ACCEPTING ∧
    OriginalDFA.balanceOf OriginalDFA.St.Q7 = 35 ∧
    OriginalDFA.transition OriginalDFA.St.Q7 OriginalDFA.Sym.v ≠
      (OriginalDFA.St.Q7, OriginalDFA.St.Q0, some Product.Vitamin) := by
  decide

/-- C1, amended: from each accepting state with balance RM35, RM40 or RM45
(`Q7`, `Q8`, `Q9`), `transition` on `v` is a self-loop reporting no
dispense; only from `Q10` (balance RM50) does `v` return to `Q0` with a
`Vitamin` dispense. -/
theorem C1_amended :
    OriginalDFA.transition OriginalDFA.St.Q7 OriginalDFA.Sym.v =
      (OriginalDFA.St.Q7, OriginalDFA.St.Q7, none) ∧
    OriginalDFA.transition OriginalDFA.St.Q8 OriginalDFA.Sym.v =
      (OriginalDFA.St.Q8, OriginalDFA.St.Q8, none) ∧
    OriginalDFA.transition OriginalDFA.St.Q9 OriginalDFA.Sym.v =
      (OriginalDFA.St.Q9, OriginalDFA.St.Q9, none) ∧
    OriginalDFA.transition OriginalDFA.St.Q10 OriginalDFA.Sym.v =
      (OriginalDFA.St.Q10, OriginalDFA.St.Q0, some Product.Vitamin) := by
  decide

/-- C2, counterexample: from `S0`, the sequence `select_e`, `RM20`,
`select_v` ends in `V5`, whose balance metadata is 25, not 20: selecting
the eye-drop path already lands on `E1` (balance 5), so `RM20` reaches
`E5` (balance 25) and the switch lands on `V5`. -/
theorem C2_counterexample :
    TwoLineDFA.run TwoLineDFA.St.S0
      [TwoLineDFA.Sym.select_e, TwoLineDFA.Sym.RM20, TwoLineDFA.Sym.select_v] =
      TwoLineDFA.St.V5 ∧
    TwoLineDFA.balanceOf TwoLineDFA.St.V5 ≠ 20 := by
  decide

/-- C2, amended: from `S0`, applying `select_e`, `RM20`, `select_v` ends in
the vitamin-line state `V5` whose balance metadata equals 25 — the same
tier as `E5`, the eye-line state before the switch (tier preserved across
the path switch) — and not in the vitamin path start state `V1`. -/
theorem C2_amended :
    TwoLineDFA.run TwoLineDFA.St.S0
      [TwoLineDFA.Sym.select_e, TwoLineDFA.Sym.RM20, TwoLineDFA.Sym.select_v] =
      TwoLineDFA.St.V5 ∧
    TwoLineDFA.balanceOf TwoLineDFA.St.V5 = 25 ∧
    TwoLineDFA.run TwoLineDFA.St.S0
      [TwoLineDFA.Sym.select_e, TwoLineDFA.Sym.RM20] = TwoLineDFA.St.E5 ∧
    TwoLineDFA.balanceOf TwoLineDFA.St.E5 = 25 ∧
    TwoLineDFA.St.V5 ≠ TwoLineDFA.St.V1 := by
  decide

/-- C3, counterexample: after four `transition('RM5')` calls from the
initial closure, the current set is `{Q4}` — a tier-20 set that does not
contain `EYE_READY`; four RM5 insertions only reach RM20, not RM35. -/
theorem C3_counterexample :
    NFASimulator.runTransitions
        (NFASimulator.epsilon_closure {NFASimulator.St.Q0})
        (List.replicate 4 NFASimulator.Sym.RM5) = {NFASimulator.St.Q4} ∧
    NFASimulator.St.EYE_READY ∉
      NFASimulator.runTransitions
        (NFASimulator.epsilon_closure {NFASimulator.St.Q0})
        (List.replicate 4 NFASimulator.Sym.RM5) ∧
    NFASimulator.balanceOf NFASimulator.St.Q4 = 20 := by
  decide

/-- C3, amended: after seven `transition('RM5')` calls from the initial
closure (RM35 inserted), the current set equals the epsilon closure of
the tier-35 state `Q7` and contains the eye-drop-ready member
`EYE_READY`. -/
theorem C3_amended :
    NFASimulator.runTransitions
        (NFASimulator.epsilon_closure {NFASimulator.St.Q0})
        (List.replicate 7 NFASimulator.Sym.RM5) =
      NFASimulator.epsilon_closure {NFASimulator.St.Q7} ∧
    NFASimulator.St.EYE_READY ∈
      NFASimulator.runTransitions
        (NFASimulator.epsilon_closure {NFASimulator.St.Q0})
        (List.replicate 7 NFASimulator.Sym.RM5) ∧
    NFASimulator.balanceOf NFASimulator.St.Q7 = 35 := by
  decide

/-- C4: whenever the current set holds an accepting-ready member with a
move on the issued dispense-request symbol (`EYE_READY` with
`dispense_e`, or `VIT_READY` with `dispense_v`), one `transition` call
passes through the sink `DISPENSE` state, reports exactly the one
product the symbol selects, and leaves the position equal to the
epsilon closure of the initial state — the reset is inside the call. -/
theorem C4_dispense_and_autoreset (S : Finset NFASimulator.St)
    (symbol : NFASimulator.Sym) (p : Product)
    (h : (NFASimulator.St.EYE_READY ∈ S ∧ symbol = NFASimulator.Sym.dispense_e ∧
            p = Product.EyeDrop) ∨
         (NFASimulator.St.VIT_READY ∈ S ∧ symbol = NFASimulator.Sym.dispense_v ∧
            p = Product.Vitamin)) :
    NFASimulator.St.DISPENSE ∈
        NFASimulator.epsilon_closure (NFASimulator.new_states S symbol) ∧
    NFASimulator.transition S symbol =
      (S, NFASimulator.epsilon_closure {NFASimulator.St.Q0}, some p) := by
  rcases h with ⟨hmem, rfl, rfl⟩ | ⟨hmem, rfl, rfl⟩
  · have hnew := NFASimulator.new_states_eye hmem
    have hpos : NFASimulator.posAfterMove S NFASimulator.Sym.dispense_e =
        NFASimulator.epsilon_closure {NFASimulator.St.DISPENSE} := by
      unfold NFASimulator.posAfterMove
      rw [hnew, if_pos (by decide)]
    have hd : NFASimulator.St.DISPENSE ∈
        NFASimulator.posAfterMove S NFASimulator.Sym.dispense_e := by
      rw [hpos]
      decide
    refine ⟨by rw [hnew]; decide, ?_⟩
    unfold NFASimulator.transition
    rw [if_pos hd]
    simp
  · have hnew := NFASimulator.new_states_vit hmem
    have hpos : NFASimulator.posAfterMove S NFASimulator.Sym.dispense_v =
        NFASimulator.epsilon_closure {NFASimulator.St.DISPENSE} := by
      unfold NFASimulator.posAfterMove
      rw [hnew, if_pos (by decide)]
    have hd : NFASimulator.St.DISPENSE ∈
        NFASimulator.posAfterMove S NFASimulator.Sym.dispense_v := by
      rw [hpos]
      decide
    refine ⟨by rw [hnew]; decide, ?_⟩
    unfold NFASimulator.transition
    rw [if_pos hd]
    simp

/-- C4, witness at the reachable set `closure {Q7} = {Q7, EYE_READY}`
with the symbol `dispense_e`. -/
theorem C4_dispense_and_autoreset_witness :
    NFASimulator.St.DISPENSE ∈
        NFASimulator.epsilon_closure
          (NFASimulator.new_states
            (NFASimulator.epsilon_closure {NFASimulator.St.Q7})
            NFASimulator.Sym.dispense_e) ∧
    NFASimulator.transition (NFASimulator.epsilon_closure {NFASimulator.St.Q7})
        NFASimulator.Sym.dispense_e =
      (NFASimulator.epsilon_closure {NFASimulator.St.Q7},
       NFASimulator.epsilon_closure {NFASimulator.St.Q0},
       some Product.EyeDrop) :=
  C4_dispense_and_autoreset _ _ _ (Or.inl ⟨by decide, rfl, rfl⟩)

/-- C5: the epsilon closure of `NFASimulator._epsilon_closure` is
idempotent: closing an already-closed set returns the same set, for
every set of states. (The embedding works on `Finset`, so the result is
stated on set contents, which is exactly the order-independence the
worklist provides.) -/
theorem C5_epsilon_closure_idempotent (S : Finset NFASimulator.St) :
    NFASimulator.epsilon_closure (NFASimulator.epsilon_closure S) =
      NFASimulator.epsilon_closure S :=
  NFASimulator.stepEps_iterate_of_fix
    (NFASimulator.stepEps_epsilon_closure S) _

/-- C5, witness at the singleton `{Q7}`: its closure is `{Q7, EYE_READY}`
and closing again returns the same set. -/
theorem C5_epsilon_closure_idempotent_witness :
    NFASimulator.epsilon_closure
        (NFASimulator.epsilon_closure {NFASimulator.St.Q7}) =
      NFASimulator.epsilon_closure {NFASimulator.St.Q7} :=
  C5_epsilon_closure_idempotent {NFASimulator.St.Q7}

/-- C6: from any position the runtime can hold, if no held state has a
successor on the issued symbol (the successor union is empty), then
`transition` leaves the position exactly unchanged and reports no
dispense; the embedding is a total function, so the call cannot raise. -/
theorem C6_empty_union_noop (S : Finset NFASimulator.St)
    (symbol : NFASimulator.Sym) (hR : NFASimulator.Reachable S)
    (h : NFASimulator.new_states S symbol = ∅) :
    NFASimulator.transition S symbol = (S, S, none) := by
  have hpos : NFASimulator.posAfterMove S symbol = S := by
    unfold NFASimulator.posAfterMove
    rw [h]
    simp
  unfold NFASimulator.transition
  rw [hpos, if_neg (NFASimulator.reachable_not_dispense_mem hR)]

/-- C6, witness: from the initial position `{Q0}`, the symbol
`dispense_e` has no successor anywhere in the set, and the position is
unchanged. -/
theorem C6_empty_union_noop_witness :
    NFASimulator.transition (NFASimulator.epsilon_closure {NFASimulator.St.Q0})
        NFASimulator.Sym.dispense_e =
      (NFASimulator.epsilon_closure {NFASimulator.St.Q0},
       NFASimulator.epsilon_closure {NFASimulator.St.Q0}, none) :=
  C6_empty_union_noop _ _ NFASimulator.Reachable.init (by decide)

/-- C7: from the eye accepting state `E7`, symbol `v` is a self-loop with
no dispense; `e` from `E7` dispenses the eye drop and returns to `S0`;
`e` from any vitamin-line state is a self-loop with no dispense; and no
symbol other than `e` dispenses from `E7`. -/
theorem C7_other_line_self_loop (s : TwoLineDFA.St) (symbol : TwoLineDFA.Sym)
    (hs : TwoLineDFA.isVitaminLine s) (hsym : symbol ≠ TwoLineDFA.Sym.e) :
    TwoLineDFA.transition TwoLineDFA.St.E7 TwoLineDFA.Sym.v =
      (TwoLineDFA.St.E7, TwoLineDFA.St.E7, none) ∧
    TwoLineDFA.transition TwoLineDFA.St.E7 TwoLineDFA.Sym.e =
      (TwoLineDFA.St.E7, TwoLineDFA.St.S0, some Product.EyeDrop) ∧
    TwoLineDFA.transition s TwoLineDFA.Sym.e = (s, s, none) ∧
    (TwoLineDFA.transition TwoLineDFA.St.E7 symbol).2.2 = none := by
  refine ⟨by decide, by decide, ?_, ?_⟩
  · cases s <;> first | exact absurd hs (by decide) | decide
  · cases symbol <;> first | exact absurd rfl hsym | decide

/-- C7, witness at `s = V10`, `symbol = select_v`. -/
theorem C7_other_line_self_loop_witness :
    TwoLineDFA.transition TwoLineDFA.St.E7 TwoLineDFA.Sym.v =
      (TwoLineDFA.St.E7, TwoLineDFA.St.E7, none) ∧
    TwoLineDFA.transition TwoLineDFA.St.E7 TwoLineDFA.Sym.e =
      (TwoLineDFA.St.E7, TwoLineDFA.St.S0, some Product.EyeDrop) ∧
    TwoLineDFA.transition TwoLineDFA.St.V10 TwoLineDFA.Sym.e =
      (TwoLineDFA.St.V10, TwoLineDFA.St.V10, none) ∧
    (TwoLineDFA.transition TwoLineDFA.St.E7 TwoLineDFA.Sym.select_v).2.2 = none :=
  C7_other_line_self_loop TwoLineDFA.St.V10 TwoLineDFA.Sym.select_v
    (by decide) (by decide)

/-- C8: every position the runtime can hold — after construction, after
`reset()`, and after any sequence of `transition` calls with any
symbols — is closed under epsilon. -/
theorem C8_reachable_eps_closed (S : Finset NFASimulator.St)
    (h : NFASimulator.Reachable S) : NFASimulator.IsEpsClosed S := by
  induction h with
  | init => exact NFASimulator.isEpsClosed_epsilon_closure _
  | step S symbol hR ih =>
    unfold NFASimulator.transition
    by_cases hd : NFASimulator.St.DISPENSE ∈ NFASimulator.posAfterMove S symbol
    · rw [if_pos hd]
      exact NFASimulator.isEpsClosed_epsilon_closure _
    · rw [if_neg hd]
      dsimp only
      unfold NFASimulator.posAfterMove
      by_cases hne : (NFASimulator.new_states S symbol).Nonempty
      · rw [if_pos hne]
        exact NFASimulator.isEpsClosed_epsilon_closure _
      · rw [if_neg hne]
        exact ih

/-- C8, witness: the initial position is closed under epsilon. -/
theorem C8_reachable_eps_closed_witness :
    NFASimulator.IsEpsClosed
      (NFASimulator.epsilon_closure {NFASimulator.St.Q0}) :=
  C8_reachable_eps_closed _ NFASimulator.Reachable.init

/-- C9: on every position the runtime can hold, `get_balance` returns the
maximum of the balance metadata values of the held states: it is one of
those values and no held state's balance exceeds it — in particular the
larger tier when the set spans several, never a sum or an average. -/
theorem C9_balance_is_max (S : Finset NFASimulator.St)
    (hR : NFASimulator.Reachable S) :
    NFASimulator.get_balance S ∈ S.image NFASimulator.balanceOf ∧
    S.image NFASimulator.balanceOf ⊆
      Finset.Iic (NFASimulator.get_balance S) := by
  have hne := NFASimulator.reachable_nonempty hR
  have hsup : NFASimulator.get_balance S = S.sup NFASimulator.balanceOf := rfl
  constructor
  · obtain ⟨b, hb, hbeq⟩ := Finset.exists_mem_eq_sup S hne NFASimulator.balanceOf
    rw [hsup, hbeq]
    exact Finset.mem_image_of_mem _ hb
  · intro b hb
    obtain ⟨s, hs, rfl⟩ := Finset.mem_image.mp hb
    exact Finset.mem_Iic.mpr (hsup ▸ Finset.le_sup hs)

/-- C9, witness at the initial position. -/
theorem C9_balance_is_max_witness :
    NFASimulator.get_balance (NFASimulator.epsilon_closure {NFASimulator.St.Q0}) ∈
      (NFASimulator.epsilon_closure {NFASimulator.St.Q0}).image
        NFASimulator.balanceOf ∧
    (NFASimulator.epsilon_closure {NFASimulator.St.Q0}).image
        NFASimulator.balanceOf ⊆
      Finset.Iic
        (NFASimulator.get_balance
          (NFASimulator.epsilon_closure {NFASimulator.St.Q0})) :=
  C9_balance_is_max _ NFASimulator.Reachable.init

/-- C10: from each of `V8` (RM40), `V9` (RM45) and `V10` (RM50),
`select_e` lands on `E7`, whose balance metadata is 35: the cross-line
switch clamps the tier down to the eye line's top tier. -/
theorem C10_clamp_to_E7 :
    TwoLineDFA.transition TwoLineDFA.St.V8 TwoLineDFA.Sym.select_e =
      (TwoLineDFA.St.V8, TwoLineDFA.St.E7, none) ∧
    TwoLineDFA.transition TwoLineDFA.St.V9 TwoLineDFA.Sym.select_e =
      (TwoLineDFA.St.V9, TwoLineDFA.St.E7, none) ∧
    TwoLineDFA.transition TwoLineDFA.St.V10 TwoLineDFA.Sym.select_e =
      (TwoLineDFA.St.V10, TwoLineDFA.St.E7, none) ∧
    TwoLineDFA.balanceOf TwoLineDFA.St.E7 = 35 ∧
    TwoLineDFA.balanceOf TwoLineDFA.St.V8 = 40 ∧
    TwoLineDFA.balanceOf TwoLineDFA.St.V9 = 45 ∧
    TwoLineDFA.balanceOf TwoLineDFA.St.V10 = 50 := by
  decide
